import Mathlib

/-!
Verification of the ephemeral viewer-token mechanism of
nutrient-hubspot-viewer-sdk, shallowly embedded from src/backend/server.js.

Modelling conventions:
- Time is a natural number of milliseconds, standing for Date.now().
- The process-wide Map called viewerTokens is modelled as an association
  list from token strings to records.  The server only ever calls get, set
  and delete on it, so insertion order is unobservable; set replaces an
  existing binding in place (as Map.set does) and delete removes the
  binding for the key.
- crypto.randomBytes(32).toString produces an unpredictable fresh string;
  the embedding takes that string as an explicit parameter of the mint
  operation, and the negligible-collision assumption of the random source
  appears as a distinctness hypothesis where a claim needs it.
- Stateful functions take the store as an argument and return the updated
  store next to their result.
- JavaScript falsiness of an optional string field (absent or empty)
  is modelled by strFalsy.
-/

/-- A stored token record: the value type of the viewerTokens map
(server.js lines 105-110). -/
structure TokenRecord where
  fileId : String
  filename : String
  expiresAt : Nat
  used : Bool
deriving DecidableEq, Repr

/-- The process-wide viewerTokens map (server.js line 92), modelled as an
association list keyed by the token string. -/
def TokenStore := List (String × TokenRecord)
deriving DecidableEq

/-- Map.get: the record bound to a token, if any. -/
def TokenStore.get : TokenStore → String → Option TokenRecord
  | [], _ => none
  | (k, v) :: rest, t => if k = t then some v else TokenStore.get rest t

/-- Map.set: replace the binding for the key in place, else append. -/
def TokenStore.set : TokenStore → String → TokenRecord → TokenStore
  | [], t, r => [(t, r)]
  | (k, v) :: rest, t, r =>
    if k = t then (t, r) :: rest else (k, v) :: TokenStore.set rest t r

/-- Map.delete: remove the binding for the key. -/
def TokenStore.del : TokenStore → String → TokenStore
  | [], _ => []
  | (k, v) :: rest, t =>
    if k = t then TokenStore.del rest t else (k, v) :: TokenStore.del rest t

/-- Token lifetime: 15 minutes in milliseconds (server.js line 103). -/
def tokenLifetimeMs : Nat := 15 * 60 * 1000

/-- generateViewerToken (server.js lines 100-118).  The fresh random token
string and the current time are parameters; the function stores a record
with expiresAt equal to now plus 15 minutes and returns the token. -/
def generateViewerToken (token : String) (now : Nat)
    (fileId filename : String) (store : TokenStore) : TokenStore × String :=
  let expiresAt := now + tokenLifetimeMs
  (store.set token { fileId := fileId, filename := filename,
                     expiresAt := expiresAt, used := false }, token)

/-- The deferred cleanup scheduled by setTimeout at mint time
(server.js lines 113-115): it deletes the token from the store. -/
def scheduledCleanup (token : String) (store : TokenStore) : TokenStore :=
  store.del token

/-- validateViewerToken (server.js lines 125-138).  Returns the record when
the token is present and not past expiry; returns none both when the token
is absent and when it is expired, deleting the record in the latter case.
The comparison with expiresAt is strict, as in the source. -/
def validateViewerToken (now : Nat) (token : String)
    (store : TokenStore) : Option TokenRecord × TokenStore :=
  match store.get token with
  | none => (none, store)
  | some tokenData =>
    if now > tokenData.expiresAt then (none, store.del token)
    else (some tokenData, store)

/-- Map.get finds nothing for an absent (undefined) argument, since every
stored key is a string produced by the mint path; this wrapper models
calling validateViewerToken with a missing token value. -/
def validateViewerTokenOpt (now : Nat) (token : Option String)
    (store : TokenStore) : Option TokenRecord × TokenStore :=
  match token with
  | none => (none, store)
  | some t => validateViewerToken now t store

/-- JavaScript falsiness of an optional string request field: absent or
empty. -/
def strFalsy : Option String → Bool
  | none => true
  | some s => s = ""

/-- Outcome of a token-guarded request handler, as far as the token
mechanism is concerned. -/
inductive RouteOutcome where
  | missingToken
  | unauthorized
  | ok (tokenData : TokenRecord)
deriving DecidableEq, Repr

/-- The token gate of the file-content route (server.js lines 575-595):
reject a falsy token, then validate it and require that the record is
bound to the fileId from the path; the store is threaded through
validateViewerToken, and a mismatch leaves it untouched. -/
def fileRouteValidate (now : Nat) (token : Option String) (fileId : String)
    (store : TokenStore) : RouteOutcome × TokenStore :=
  if strFalsy token then (.missingToken, store)
  else
    let t := token.getD ""
    match validateViewerToken now t store with
    | (none, s) => (.unauthorized, s)
    | (some tokenData, s) =>
      if tokenData.fileId ≠ fileId then (.unauthorized, s)
      else (.ok tokenData, s)

/-- Outcome of the upload route (server.js lines 835-990): after the token
gate and the file-presence checks it proceeds upstream, either replacing
the file named by the (truthy) body fileId or creating a new file. -/
inductive UploadOutcome where
  | missingToken
  | unauthorized
  | noFile
  | proceedReplace (fileId : String)
  | proceedNew
deriving DecidableEq, Repr

/-- The upload route handler up to the point where it calls the upstream
HubSpot API (server.js lines 848-958).  The token check consults only the
token; the body fileId is read afterwards and never compared with the
fileId stored in the token record. -/
def uploadHandler (now : Nat) (token : Option String) (filePresent : Bool)
    (bodyFileId : Option String) (store : TokenStore) :
    UploadOutcome × TokenStore :=
  if strFalsy token then (.missingToken, store)
  else
    let t := token.getD ""
    match validateViewerToken now t store with
    | (none, s) => (.unauthorized, s)
    | (some _, s) =>
      if !filePresent then (.noFile, s)
      else if strFalsy bodyFileId then (.proceedNew, s)
      else (.proceedReplace (bodyFileId.getD ""), s)

/-- The mint endpoint (server.js lines 460-484): reject a falsy fileId
with no side effect, otherwise mint with the filename defaulted to the
placeholder when it is falsy, and return the token. -/
def generateViewerTokenEndpoint (freshToken : String) (now : Nat)
    (fileId filename : Option String) (store : TokenStore) :
    TokenStore × Option String :=
  if strFalsy fileId then (store, none)
  else
    let fid := fileId.getD ""
    let fn := if strFalsy filename then "document" else filename.getD ""
    let minted := generateViewerToken freshToken now fid fn store
    (minted.1, some minted.2)

/-- The store after a sequence of validateViewerToken calls for the same
token at the given successive times. -/
def validateMany (token : String) : List Nat → TokenStore → TokenStore
  | [], store => store
  | now :: rest, store =>
    validateMany token rest (validateViewerToken now token store).2

/-- A concrete record used by witnesses and counterexamples. -/
def sampleRecord : TokenRecord :=
  { fileId := "42", filename := "a.pdf", expiresAt := 1000, used := false }

/-- A concrete one-entry store used by witnesses and counterexamples. -/
def sampleStore : TokenStore := [("t", sampleRecord)]

-- Basic lemmas about the store operations.

theorem TokenStore.get_set_self (s : TokenStore) (t : String) (r : TokenRecord) :
    (s.set t r).get t = some r := by
  induction s with
  | nil => simp [TokenStore.set, TokenStore.get]
  | cons hd tl ih =>
    obtain ⟨k, v⟩ := hd
    by_cases h : k = t
    · simp [TokenStore.set, TokenStore.get, h]
    · simp [TokenStore.set, TokenStore.get, h, ih]

theorem TokenStore.get_set_ne (s : TokenStore) (t u : String) (r : TokenRecord)
    (h : t ≠ u) : (s.set t r).get u = s.get u := by
  induction s with
  | nil => simp [TokenStore.set, TokenStore.get, h]
  | cons hd tl ih =>
    obtain ⟨k, v⟩ := hd
    by_cases hk : k = t
    · subst hk
      simp [TokenStore.set, TokenStore.get, h]
    · by_cases hu : k = u
      · simp [TokenStore.set, TokenStore.get, hk, hu, Ne.symm h]
      · simp [TokenStore.set, TokenStore.get, hk, hu, ih]

theorem TokenStore.get_del_self (s : TokenStore) (t : String) :
    (s.del t).get t = none := by
  induction s with
  | nil => simp [TokenStore.del, TokenStore.get]
  | cons hd tl ih =>
    obtain ⟨k, v⟩ := hd
    by_cases h : k = t
    · simp [TokenStore.del, h, ih]
    · simp [TokenStore.del, TokenStore.get, h, ih]

theorem TokenStore.get_del_ne (s : TokenStore) (t u : String) (h : t ≠ u) :
    (s.del t).get u = s.get u := by
  induction s with
  | nil => simp [TokenStore.del]
  | cons hd tl ih =>
    obtain ⟨k, v⟩ := hd
    by_cases hk : k = t
    · subst hk
      simp [TokenStore.del, TokenStore.get, h, ih]
    · by_cases hu : k = u
      · simp [TokenStore.del, TokenStore.get, hk, hu, Ne.symm h]
      · simp [TokenStore.del, TokenStore.get, hk, hu, ih]

theorem TokenStore.del_of_get_none (s : TokenStore) (t : String)
    (h : s.get t = none) : s.del t = s := by
  induction s with
  | nil => rfl
  | cons hd tl ih =>
    obtain ⟨k, v⟩ := hd
    by_cases hk : k = t
    · simp [TokenStore.get, hk] at h
    · simp [TokenStore.get, hk] at h
      simp [TokenStore.del, hk, ih h]

theorem TokenStore.del_del (s : TokenStore) (t : String) :
    (s.del t).del t = s.del t :=
  TokenStore.del_of_get_none _ _ (TokenStore.get_del_self s t)

-- Lemmas characterising the three branches of validateViewerToken.

theorem validateViewerToken_notFound (now : Nat) (t : String) (s : TokenStore)
    (hget : s.get t = none) :
    validateViewerToken now t s = (none, s) := by
  simp [validateViewerToken, hget]

theorem validateViewerToken_live (now : Nat) (t : String) (s : TokenStore)
    (r : TokenRecord) (hget : s.get t = some r) (hlive : now ≤ r.expiresAt) :
    validateViewerToken now t s = (some r, s) := by
  simp only [validateViewerToken, hget]
  rw [if_neg (by omega)]

theorem validateViewerToken_expired (now : Nat) (t : String) (s : TokenStore)
    (r : TokenRecord) (hget : s.get t = some r) (hexp : r.expiresAt < now) :
    validateViewerToken now t s = (none, s.del t) := by
  simp only [validateViewerToken, hget]
  rw [if_pos (by omega)]

-- Claim C1

/-- C1 counterexample: with a stored record whose expiresAt is 1000, a
validation call at now = 1000 (so now is at least expiresAt) does not fail
and does not delete the record: it returns the record and leaves the store
unchanged, because the source compares with a strict inequality.  This
refutes the claim that the token is already invalid at exactly the instant
expiresAt. -/
theorem C1_counterexample :
    validateViewerToken 1000 "t" sampleStore = (some sampleRecord, sampleStore) ∧
    ¬ (validateViewerToken 1000 "t" sampleStore).1 = none := by
  decide

/-- C1 (amended): for every stored token record, a validation call at a
time strictly after expiresAt fails and deletes the record from the store;
at exactly the instant expiresAt the token still validates successfully. -/
theorem C1_amended_strict_expiry (now : Nat) (t : String) (s : TokenStore)
    (r : TokenRecord) (hget : s.get t = some r) :
    (r.expiresAt < now → validateViewerToken now t s = (none, s.del t)) ∧
    validateViewerToken r.expiresAt t s = (some r, s) :=
  ⟨fun hexp => validateViewerToken_expired now t s r hget hexp,
   validateViewerToken_live r.expiresAt t s r hget (Nat.le_refl _)⟩

/-- C1 witness: the amended theorem evaluated at the sample store. -/
theorem C1_amended_strict_expiry_witness :
    validateViewerToken 1001 "t" sampleStore = (none, TokenStore.del sampleStore "t") ∧
    validateViewerToken 1000 "t" sampleStore = (some sampleRecord, sampleStore) :=
  ⟨(C1_amended_strict_expiry 1001 "t" sampleStore sampleRecord (by decide)).1 (by decide),
   (C1_amended_strict_expiry 1000 "t" sampleStore sampleRecord (by decide)).2⟩

-- Claim C3

/-- C3: for every non-empty fileId and every filename, immediately after
minting (that is, before 15 minutes have elapsed) the file route validates
the returned token successfully against the same fileId and returns the
stored record, whose fileId and filename are those supplied at mint time
and whose expiresAt is the mint time plus 15 minutes.  The hypothesis that
the fresh random token is non-empty reflects its 64-character hex shape. -/
theorem C3_mint_then_validate (tok fid fn : String) (s : TokenStore)
    (mintTime checkTime : Nat) (hfid : fid ≠ "") (htok : tok ≠ "")
    (hbefore : checkTime < mintTime + tokenLifetimeMs) :
    fileRouteValidate checkTime (some tok) fid
        (generateViewerToken tok mintTime fid fn s).1 =
      (RouteOutcome.ok { fileId := fid,
                         filename := fn,
                         expiresAt := mintTime + tokenLifetimeMs,
                         used := false },
       (generateViewerToken tok mintTime fid fn s).1) := by
  have hget : ((generateViewerToken tok mintTime fid fn s).1).get tok =
      some { fileId := fid, filename := fn,
             expiresAt := mintTime + tokenLifetimeMs, used := false } := by
    simpa [generateViewerToken] using TokenStore.get_set_self s tok
      { fileId := fid, filename := fn,
        expiresAt := mintTime + tokenLifetimeMs, used := false }
  have hval := validateViewerToken_live checkTime tok
      (generateViewerToken tok mintTime fid fn s).1
      { fileId := fid, filename := fn,
        expiresAt := mintTime + tokenLifetimeMs, used := false }
      hget (by simp; omega)
  simp [fileRouteValidate, strFalsy, htok, hval]

/-- C3 witness at concrete inputs. -/
theorem C3_mint_then_validate_witness :
    fileRouteValidate 5 (some "t") "42"
        (generateViewerToken "t" 0 "42" "a.pdf" []).1 =
      (RouteOutcome.ok { fileId := "42",
                         filename := "a.pdf",
                         expiresAt := 0 + tokenLifetimeMs,
                         used := false },
       (generateViewerToken "t" 0 "42" "a.pdf" []).1) :=
  C3_mint_then_validate "t" "42" "a.pdf" [] 0 5 (by decide) (by decide) (by decide)

-- Claim C4

/-- C4: the first validation call that observes an expired record deletes
it before returning the failure, the record is then gone from the store,
and any subsequent validation of the same token takes the not-found
branch: it fails and leaves the store unchanged. -/
theorem C4_lazy_delete_then_notFound (now1 : Nat) (t : String)
    (s : TokenStore) (r : TokenRecord)
    (hget : s.get t = some r) (hexp : r.expiresAt < now1) :
    validateViewerToken now1 t s = (none, s.del t) ∧
    (s.del t).get t = none ∧
    ∀ now2, validateViewerToken now2 t (s.del t) = (none, s.del t) :=
  ⟨validateViewerToken_expired now1 t s r hget hexp,
   TokenStore.get_del_self s t,
   fun now2 => validateViewerToken_notFound now2 t (s.del t)
     (TokenStore.get_del_self s t)⟩

/-- C4 witness at the sample store, with the subsequent call at a concrete
later time. -/
theorem C4_lazy_delete_then_notFound_witness :
    validateViewerToken 2000 "t" sampleStore =
      (none, TokenStore.del sampleStore "t") ∧
    (TokenStore.del sampleStore "t").get "t" = none ∧
    validateViewerToken 3000 "t" (TokenStore.del sampleStore "t") =
      (none, TokenStore.del sampleStore "t") := by
  have h := C4_lazy_delete_then_notFound 2000 "t" sampleStore sampleRecord
    (by decide) (by decide)
  exact ⟨h.1, h.2.1, h.2.2 3000⟩

-- Claim C5

/-- C5: a live token bound to some fileId fails the file-route check for
every other expectedFileId, the failing call leaves the whole store
exactly unchanged (so the record is neither deleted nor modified), and a
later call with the correct fileId still succeeds and returns the record.
-/
theorem C5_mismatch_leaves_record (now1 now2 : Nat) (t other : String)
    (s : TokenStore) (r : TokenRecord) (hget : s.get t = some r)
    (hlive1 : now1 ≤ r.expiresAt) (hlive2 : now2 ≤ r.expiresAt)
    (hne : other ≠ r.fileId) (htok : t ≠ "") :
    fileRouteValidate now1 (some t) other s = (RouteOutcome.unauthorized, s) ∧
    fileRouteValidate now2 (some t) r.fileId s = (RouteOutcome.ok r, s) := by
  have h1 := validateViewerToken_live now1 t s r hget hlive1
  have h2 := validateViewerToken_live now2 t s r hget hlive2
  constructor
  · simp [fileRouteValidate, strFalsy, htok, h1, Ne.symm hne]
  · simp [fileRouteValidate, strFalsy, htok, h2]

/-- C5 witness: mismatch with fileId 99 then success with fileId 42 on the
sample store. -/
theorem C5_mismatch_leaves_record_witness :
    fileRouteValidate 500 (some "t") "99" sampleStore =
      (RouteOutcome.unauthorized, sampleStore) ∧
    fileRouteValidate 600 (some "t") "42" sampleStore =
      (RouteOutcome.ok sampleRecord, sampleStore) :=
  C5_mismatch_leaves_record 500 600 "t" "99" sampleStore sampleRecord
    (by decide) (by decide) (by decide) (by decide) (by decide)

-- Claim C6

/-- C6: validating an unexpired token is pure: a single call returns the
stored record with every field exactly as stored and leaves the whole
store unchanged, and any sequence of validation calls at times up to
expiresAt leaves the store exactly as it was; in particular expiry is
never extended and the used flag is never consulted or set. -/
theorem C6_validate_pure (t : String) (s : TokenStore) (r : TokenRecord)
    (hget : s.get t = some r) :
    (∀ now, now ≤ r.expiresAt → validateViewerToken now t s = (some r, s)) ∧
    ∀ times : List Nat, (∀ x ∈ times, x ≤ r.expiresAt) →
      validateMany t times s = s := by
  refine ⟨fun now h => validateViewerToken_live now t s r hget h, ?_⟩
  intro times
  induction times with
  | nil => intro _; rfl
  | cons hd tl ih =>
    intro htimes
    have hhd : hd ≤ r.expiresAt := htimes hd (List.mem_cons_self _ _)
    have hstep := validateViewerToken_live hd t s r hget hhd
    simp only [validateMany, hstep]
    exact ih fun x hx => htimes x (List.mem_cons_of_mem _ hx)

/-- C6 witness: repeated validation at three times up to expiry leaves the
sample store unchanged, and a single call returns the stored record. -/
theorem C6_validate_pure_witness :
    validateViewerToken 500 "t" sampleStore = (some sampleRecord, sampleStore) ∧
    validateMany "t" [1, 2, 1000] sampleStore = sampleStore := by
  have h := C6_validate_pure "t" sampleStore sampleRecord (by decide)
  exact ⟨h.1 500 (by decide), h.2 [1, 2, 1000] (by decide)⟩

-- Claim C2

/-- C2: the upload route accepts any live token regardless of the fileId
it was minted for: a token whose record is bound to fileId A, presented
together with any other body fileId B, passes the token check and
proceeds to the upstream replace call for B with the store unchanged; the
fileId bound in the record is never compared with B at this call site. -/
theorem C2_upload_ignores_bound_fileId (now : Nat) (t A B : String)
    (s : TokenStore) (r : TokenRecord) (hget : s.get t = some r)
    (hA : r.fileId = A) (hlive : now ≤ r.expiresAt)
    (htok : t ≠ "") (hB : B ≠ "") :
    uploadHandler now (some t) true (some B) s =
      (UploadOutcome.proceedReplace B, s) := by
  have h := validateViewerToken_live now t s r hget hlive
  simp [uploadHandler, strFalsy, htok, hB, h]

/-- C2 witness: a token bound to fileId 42 authorizes an upload that
targets fileId 99. -/
theorem C2_upload_ignores_bound_fileId_witness :
    uploadHandler 500 (some "t") true (some "99") sampleStore =
      (UploadOutcome.proceedReplace "99", sampleStore) :=
  C2_upload_ignores_bound_fileId 500 "t" "42" "99" sampleStore sampleRecord
    (by decide) (by decide) (by decide) (by decide) (by decide)

-- Claim C7

/-- C7: two consecutive mints, even for the same fileId, given that the
two fresh random strings are distinct (the negligible-collision guarantee
of the 32-byte random source), return those two distinct token strings
and store two separate live records, and each token validates
independently of the other: deleting either record, which is exactly what
expiry does, leaves validation of the other unaffected. -/
theorem C7_independent_mints (t1 t2 fid fn1 fn2 : String)
    (now1 now2 : Nat) (s s1 s2 : TokenStore) (r1 r2 : TokenRecord)
    (hne : t1 ≠ t2)
    (hs1 : s1 = (generateViewerToken t1 now1 fid fn1 s).1)
    (hs2 : s2 = (generateViewerToken t2 now2 fid fn2 s1).1)
    (hr1 : r1 = { fileId := fid, filename := fn1,
                  expiresAt := now1 + tokenLifetimeMs, used := false })
    (hr2 : r2 = { fileId := fid, filename := fn2,
                  expiresAt := now2 + tokenLifetimeMs, used := false }) :
    (generateViewerToken t1 now1 fid fn1 s).2 ≠
      (generateViewerToken t2 now2 fid fn2 s1).2 ∧
    s2.get t1 = some r1 ∧ s2.get t2 = some r2 ∧
    (∀ now, now ≤ r2.expiresAt →
      validateViewerToken now t2 (s2.del t1) = (some r2, s2.del t1)) ∧
    (∀ now, now ≤ r1.expiresAt →
      validateViewerToken now t1 (s2.del t2) = (some r1, s2.del t2)) := by
  subst hs1 hs2 hr1 hr2
  simp only [generateViewerToken]
  have hget1 : ((s.set t1 { fileId := fid, filename := fn1,
                            expiresAt := now1 + tokenLifetimeMs,
                            used := false }).set t2
        { fileId := fid, filename := fn2,
          expiresAt := now2 + tokenLifetimeMs, used := false }).get t1 =
      some { fileId := fid, filename := fn1,
             expiresAt := now1 + tokenLifetimeMs, used := false } := by
    rw [TokenStore.get_set_ne _ _ _ _ (Ne.symm hne), TokenStore.get_set_self]
  have hget2 : ((s.set t1 { fileId := fid, filename := fn1,
                            expiresAt := now1 + tokenLifetimeMs,
                            used := false }).set t2
        { fileId := fid, filename := fn2,
          expiresAt := now2 + tokenLifetimeMs, used := false }).get t2 =
      some { fileId := fid, filename := fn2,
             expiresAt := now2 + tokenLifetimeMs, used := false } :=
    TokenStore.get_set_self _ _ _
  refine ⟨hne, hget1, hget2, ?_, ?_⟩
  · intro now hnow
    refine validateViewerToken_live now t2 _ _ ?_ hnow
    rw [TokenStore.get_del_ne _ _ _ hne]
    exact hget2
  · intro now hnow
    refine validateViewerToken_live now t1 _ _ ?_ hnow
    rw [TokenStore.get_del_ne _ _ _ (Ne.symm hne)]
    exact hget1

/-- C7 witness: two concrete mints for fileId 42 with distinct fresh
strings; each record survives deletion of the other and still validates.
-/
theorem C7_independent_mints_witness :
    (generateViewerToken "t1" 0 "42" "a" []).2 ≠
      (generateViewerToken "t2" 10 "42" "b"
        [("t1", { fileId := "42", filename := "a",
                  expiresAt := 900000, used := false })]).2 ∧
    TokenStore.get
        [("t1", { fileId := "42", filename := "a",
                  expiresAt := 900000, used := false }),
         ("t2", { fileId := "42", filename := "b",
                  expiresAt := 900010, used := false })] "t1" =
      some { fileId := "42", filename := "a",
             expiresAt := 900000, used := false } ∧
    TokenStore.get
        [("t1", { fileId := "42", filename := "a",
                  expiresAt := 900000, used := false }),
         ("t2", { fileId := "42", filename := "b",
                  expiresAt := 900010, used := false })] "t2" =
      some { fileId := "42", filename := "b",
             expiresAt := 900010, used := false } ∧
    validateViewerToken 100 "t2"
        (TokenStore.del
          [("t1", { fileId := "42", filename := "a",
                    expiresAt := 900000, used := false }),
           ("t2", { fileId := "42", filename := "b",
                    expiresAt := 900010, used := false })] "t1") =
      (some { fileId := "42", filename := "b",
              expiresAt := 900010, used := false },
       TokenStore.del
          [("t1", { fileId := "42", filename := "a",
                    expiresAt := 900000, used := false }),
           ("t2", { fileId := "42", filename := "b",
                    expiresAt := 900010, used := false })] "t1") ∧
    validateViewerToken 100 "t1"
        (TokenStore.del
          [("t1", { fileId := "42", filename := "a",
                    expiresAt := 900000, used := false }),
           ("t2", { fileId := "42", filename := "b",
                    expiresAt := 900010, used := false })] "t2") =
      (some { fileId := "42", filename := "a",
              expiresAt := 900000, used := false },
       TokenStore.del
          [("t1", { fileId := "42", filename := "a",
                    expiresAt := 900000, used := false }),
           ("t2", { fileId := "42", filename := "b",
                    expiresAt := 900010, used := false })] "t2") := by
  have h := C7_independent_mints "t1" "t2" "42" "a" "b" 0 10 []
      [("t1", { fileId := "42", filename := "a",
                expiresAt := 900000, used := false })]
      [("t1", { fileId := "42", filename := "a",
                expiresAt := 900000, used := false }),
       ("t2", { fileId := "42", filename := "b",
                expiresAt := 900010, used := false })]
      { fileId := "42", filename := "a",
        expiresAt := 900000, used := false }
      { fileId := "42", filename := "b",
        expiresAt := 900010, used := false }
      (by decide) (by decide) (by decide) (by decide) (by decide)
  exact ⟨h.1, h.2.1, h.2.2.1, h.2.2.2.1 100 (by decide),
         h.2.2.2.2 100 (by decide)⟩

-- Claim C8

/-- C8: the mint endpoint rejects a falsy (absent or empty) fileId before
touching the store and returns no token, while an absent filename does
not cause rejection: the record is created with the placeholder filename
document and the token is returned. -/
theorem C8_mint_endpoint_guard (freshTok : String) (now : Nat)
    (s : TokenStore) :
    (∀ fileId filename, strFalsy fileId = true →
        generateViewerTokenEndpoint freshTok now fileId filename s =
          (s, none)) ∧
    (∀ fid, fid ≠ "" →
        generateViewerTokenEndpoint freshTok now (some fid) none s =
          (s.set freshTok { fileId := fid,
                            filename := "document",
                            expiresAt := now + tokenLifetimeMs,
                            used := false },
           some freshTok)) := by
  constructor
  · intro fileId filename h
    simp [generateViewerTokenEndpoint, h]
  · intro fid h
    simp [generateViewerTokenEndpoint, generateViewerToken, strFalsy, h]

/-- C8 witness: empty and absent fileId are rejected with the store
untouched; an absent filename yields a record with the placeholder. -/
theorem C8_mint_endpoint_guard_witness :
    generateViewerTokenEndpoint "t" 0 (some "") (some "x") [] = ([], none) ∧
    generateViewerTokenEndpoint "t" 0 none none [] = ([], none) ∧
    generateViewerTokenEndpoint "t" 0 (some "42") none [] =
      (TokenStore.set [] "t" { fileId := "42",
                               filename := "document",
                               expiresAt := 0 + tokenLifetimeMs,
                               used := false },
       some "t") := by
  have h := C8_mint_endpoint_guard "t" 0 []
  exact ⟨h.1 (some "") (some "x") (by decide), h.1 none none (by decide),
         h.2 "42" (by decide)⟩

-- Claim C9

/-- C9: the deferred deletion scheduled at mint time is idempotent on a
missing key: running the scheduled cleanup after the record has already
been removed leaves the store exactly unchanged, and running it twice
equals running it once. -/
theorem C9_cleanup_idempotent (t : String) (s : TokenStore) :
    (s.get t = none → scheduledCleanup t s = s) ∧
    scheduledCleanup t (scheduledCleanup t s) = scheduledCleanup t s :=
  ⟨fun h => TokenStore.del_of_get_none s t h, TokenStore.del_del s t⟩

/-- C9 witness on the sample store. -/
theorem C9_cleanup_idempotent_witness :
    scheduledCleanup "u" sampleStore = sampleStore ∧
    scheduledCleanup "t" (scheduledCleanup "t" sampleStore) =
      scheduledCleanup "t" sampleStore := by
  have hu := C9_cleanup_idempotent "u" sampleStore
  have ht := C9_cleanup_idempotent "t" sampleStore
  exact ⟨hu.1 (by decide), ht.2⟩

-- Claim C10

/-- C10: validateViewerToken is total by construction in this embedding,
mirroring the source function, which returns on every path and has no
throw site; an absent token value is treated as not found with the store
untouched, a token with no record (the empty string included) fails with
the store untouched, and an expired record also yields the failure value
none, identical to the not-found failure, so the result alone cannot
distinguish the two cases. -/
theorem C10_failure_collapse (now : Nat) (s : TokenStore) :
    validateViewerTokenOpt now none s = (none, s) ∧
    (∀ t, s.get t = none → validateViewerToken now t s = (none, s)) ∧
    (∀ t r, s.get t = some r → r.expiresAt < now →
      (validateViewerToken now t s).1 = none) := by
  refine ⟨rfl, fun t h => validateViewerToken_notFound now t s h, ?_⟩
  intro t r hget hexp
  rw [validateViewerToken_expired now t s r hget hexp]

/-- C10 witness: an absent token, the empty-string token on an empty
store, and an expired record all produce the identical failure value. -/
theorem C10_failure_collapse_witness :
    validateViewerTokenOpt 0 none [] = (none, []) ∧
    validateViewerToken 0 "" [] = (none, []) ∧
    (validateViewerToken 2000 "t" sampleStore).1 = none := by
  have h0 := C10_failure_collapse 0 []
  have h1 := C10_failure_collapse 2000 sampleStore
  exact ⟨h0.1, h0.2.1 "" (by decide),
         h1.2.2 "t" sampleRecord (by decide) (by decide)⟩
